import Mathlib

/-
Verification of the safe_vault section-local duty handlers.

Shallow embedding of:
  - src/node/elder_duties/data_section/metadata/map_storage.rs (MapStorage)
  - src/node/elder_duties/rewards/section_funds.rs (SectionFunds)
  - src/node/elder_duties/key_section/mod.rs (KeySection)
  - src/personas/mpid_manager.rs (MailBox)

External collaborators that are not part of the sampled sources (the chunk
store capability, the safe-nd Map data type, the message wrapping layer, the
safe_transfers actor, the routing membership layer) are modelled from the
specification, as marked in the doc comments below.  Machine integers (u64)
are modelled as Nat with explicit wrapping modulo 2^64 where the source
arithmetic can wrap.
-/

/-! ## Basic identifier types -/

abbrev MapAddress := Nat

abbrev PublicKey := Nat

abbrev NodeAddress := Nat

abbrev MessageId := Nat

abbrev MapKey := List Nat

abbrev MapValue := List Nat

abbrev XorName := Nat

/-! ## Association-list helpers (used to model key-value stores) -/

def lookupAssoc {α β : Type} [DecidableEq α] : List (α × β) → α → Option β
  | [], _ => none
  | (k, v) :: rest, key => if k = key then some v else lookupAssoc rest key

def insertAssoc {α β : Type} [DecidableEq α] : List (α × β) → α → β → List (α × β)
  | [], key, val => [(key, val)]
  | (k, v) :: rest, key, val =>
      if k = key then (key, val) :: rest else (k, v) :: insertAssoc rest key val

def eraseAssoc {α β : Type} [DecidableEq α] : List (α × β) → α → List (α × β)
  | [], _ => []
  | (k, v) :: rest, key => if k = key then rest else (k, v) :: eraseAssoc rest key

/-! ## The safe-nd Map data type (external crate)

Modelled from the spec: the Map data type carries an address, an owner, a
version, a per-user permission set, and key-value entries; handlers check the
requested action (read / insert / update / delete / manage-permissions)
against the stored permission set and ownership (spec section 4.2). -/

inductive MapAction
  | read
  | insert
  | update
  | delete
  | managePermissions
deriving DecidableEq, Repr

abbrev MapPermissionSet := List MapAction

inductive NdError
  | noSuchData
  | dataExists
  | noSuchEntry
  | entryExists
  | accessDenied
  | noSuchKey
  | invalidSuccessor (current : Nat)
  | other (s : String)
deriving DecidableEq, Repr

structure MapChunk where
  address : MapAddress
  owner : PublicKey
  version : Nat
  perms : List (PublicKey × MapPermissionSet)
  entries : List (MapKey × MapValue)
deriving DecidableEq, Repr

/-- Modelled from the spec: an action is allowed for the owner, or for a user
whose stored permission set contains the action; otherwise access is denied. -/
def MapChunk.checkPermissions (m : MapChunk) (action : MapAction) (requester : PublicKey) :
    Except NdError Unit :=
  if requester = m.owner then .ok ()
  else
    match lookupAssoc m.perms requester with
    | some ps => if action ∈ ps then .ok () else .error .accessDenied
    | none => .error .accessDenied

/-- Modelled from the spec: ownership check used by delete. -/
def MapChunk.checkIsOwner (m : MapChunk) (requester : PublicKey) : Except NdError Unit :=
  if requester = m.owner then .ok () else .error .accessDenied

/-- Modelled from the spec: setting user permissions requires the next version
number and updates the stored permission set. -/
def MapChunk.setUserPermissions (m : MapChunk) (user : PublicKey)
    (permissions : MapPermissionSet) (version : Nat) : Except NdError MapChunk :=
  if version = m.version + 1 then
    .ok { m with perms := insertAssoc m.perms user permissions, version := version }
  else .error (.invalidSuccessor m.version)

/-- Modelled from the spec: deleting user permissions requires the next version
number and an existing permission entry for the user. -/
def MapChunk.delUserPermissions (m : MapChunk) (user : PublicKey) (version : Nat) :
    Except NdError MapChunk :=
  if version = m.version + 1 then
    match lookupAssoc m.perms user with
    | some _ => .ok { m with perms := eraseAssoc m.perms user, version := version }
    | none => .error .noSuchKey
  else .error (.invalidSuccessor m.version)

inductive MapEntryAction
  | ins (key : MapKey) (value : MapValue)
  | upd (key : MapKey) (value : MapValue)
  | del (key : MapKey)
deriving DecidableEq, Repr

abbrev MapEntryActions := List MapEntryAction

def MapEntryAction.kind : MapEntryAction → MapAction
  | .ins _ _ => .insert
  | .upd _ _ => .update
  | .del _ => .delete

def MapChunk.applyEntryAction (m : MapChunk) : MapEntryAction → Except NdError MapChunk
  | .ins key value =>
      match lookupAssoc m.entries key with
      | some _ => .error .entryExists
      | none => .ok { m with entries := insertAssoc m.entries key value }
  | .upd key value =>
      match lookupAssoc m.entries key with
      | some _ => .ok { m with entries := insertAssoc m.entries key value }
      | none => .error .noSuchEntry
  | .del key =>
      match lookupAssoc m.entries key with
      | some _ => .ok { m with entries := eraseAssoc m.entries key }
      | none => .error .noSuchEntry

/-- Modelled from the spec: mutating entries checks each requested action kind
against the permission set and applies the entry changes in order; the first
failure aborts the whole mutation. -/
def MapChunk.mutateEntries (m : MapChunk) (actions : List MapEntryAction)
    (requester : PublicKey) : Except NdError MapChunk :=
  match actions with
  | [] => .ok m
  | a :: rest =>
      match m.checkPermissions a.kind requester with
      | .error e => .error e
      | .ok _ =>
          match m.applyEntryAction a with
          | .error e => .error e
          | .ok m2 => m2.mutateEntries rest requester

def MapChunk.shell (m : MapChunk) : MapChunk := { m with entries := [] }

def MapChunk.keys (m : MapChunk) : List MapKey := m.entries.map Prod.fst

def MapChunk.values (m : MapChunk) : List MapValue := m.entries.map Prod.snd

/-- Modelled from the spec: user permission lookup fails with NoSuchKey when
the user has no stored permission set. -/
def MapChunk.userPermissions (m : MapChunk) (user : PublicKey) :
    Except NdError MapPermissionSet :=
  match lookupAssoc m.perms user with
  | some ps => .ok ps
  | none => .error .noSuchKey

/-! ## The chunk store capability (external collaborator)

Modelled from the spec (section 6): get(address) yields the chunk or
NoSuchChunk; put(address, bytes) re-persists a chunk as a single replace
(section 4.2); delete(address) yields ok or NoSuchChunk; has(address) yields a
Bool.  Every invocation is recorded in an operation log so that frame
properties (which operations a handler performs) are visible in the model. -/

inductive ChunkStoreError
  | noSuchChunk
  | other (s : String)
deriving DecidableEq, Repr

def ChunkStoreError.toMessage : ChunkStoreError → String
  | .noSuchChunk => "NoSuchChunk"
  | .other s => s

inductive StoreOp
  | getOp (a : MapAddress)
  | putOp (a : MapAddress)
  | deleteOp (a : MapAddress)
  | hasOp (a : MapAddress)
deriving DecidableEq, Repr

structure MapChunkStore where
  data : List (MapAddress × MapChunk)
  log : List StoreOp
deriving DecidableEq, Repr

def MapChunkStore.get (s : MapChunkStore) (address : MapAddress) :
    MapChunkStore × Except ChunkStoreError MapChunk :=
  ({ s with log := s.log ++ [StoreOp.getOp address] },
   match lookupAssoc s.data address with
   | some chunk => .ok chunk
   | none => .error .noSuchChunk)

def MapChunkStore.put (s : MapChunkStore) (chunk : MapChunk) :
    MapChunkStore × Except ChunkStoreError Unit :=
  ({ data := insertAssoc s.data chunk.address chunk,
     log := s.log ++ [StoreOp.putOp chunk.address] }, .ok ())

def MapChunkStore.has (s : MapChunkStore) (address : MapAddress) :
    MapChunkStore × Bool :=
  ({ s with log := s.log ++ [StoreOp.hasOp address] },
   (lookupAssoc s.data address).isSome)

def MapChunkStore.delete (s : MapChunkStore) (address : MapAddress) :
    MapChunkStore × Except ChunkStoreError Unit :=
  match lookupAssoc s.data address with
  | some _ =>
      ({ data := eraseAssoc s.data address,
         log := s.log ++ [StoreOp.deleteOp address] }, .ok ())
  | none => ({ s with log := s.log ++ [StoreOp.deleteOp address] }, .error .noSuchChunk)

/-! ## Message envelopes and the elder message wrapping (external collaborator)

Modelled from the spec (section 6): an outbound envelope always carries the
originating correlation id when responding to a query or command; the wrapping
layer signs and hands the message to the send capability, which we model as
producing a MessagingDuty. -/

structure MsgSender where
  senderId : PublicKey
  addr : NodeAddress
deriving DecidableEq, Repr

instance {ε α : Type} [DecidableEq ε] [DecidableEq α] : DecidableEq (Except ε α) :=
  fun x y =>
    match x, y with
    | .error a, .error b =>
        if h : a = b then isTrue (congrArg Except.error h)
        else isFalse (fun hc => h (Except.error.inj hc))
    | .ok a, .ok b =>
        if h : a = b then isTrue (congrArg Except.ok h)
        else isFalse (fun hc => h (Except.ok.inj hc))
    | .error _, .ok _ => isFalse (fun hc => Except.noConfusion hc)
    | .ok _, .error _ => isFalse (fun hc => Except.noConfusion hc)

inductive CmdError
  | data (e : NdError)
deriving DecidableEq, Repr

inductive QueryResponse
  | getMap (r : Except NdError MapChunk)
  | getMapShell (r : Except NdError MapChunk)
  | getMapVersion (r : Except NdError Nat)
  | getMapValue (r : Except NdError MapValue)
  | listMapKeys (r : Except NdError (List MapKey))
  | listMapValues (r : Except NdError (List MapValue))
  | listMapEntries (r : Except NdError (List (MapKey × MapValue)))
  | listMapPermissions (r : Except NdError (List (PublicKey × MapPermissionSet)))
  | listMapUserPermissions (r : Except NdError MapPermissionSet)
deriving DecidableEq, Repr

/-- The error carried by a query response, when the carried result failed. -/
def QueryResponse.errorOf : QueryResponse → Option NdError
  | .getMap (.error e) => some e
  | .getMapShell (.error e) => some e
  | .getMapVersion (.error e) => some e
  | .getMapValue (.error e) => some e
  | .listMapKeys (.error e) => some e
  | .listMapValues (.error e) => some e
  | .listMapEntries (.error e) => some e
  | .listMapPermissions (.error e) => some e
  | .listMapUserPermissions (.error e) => some e
  | _ => none

inductive Message
  | queryResponse (response : QueryResponse) (id : MessageId)
      (correlationId : MessageId) (queryOrigin : NodeAddress)
  | cmdError (error : CmdError) (correlationId : MessageId) (dest : NodeAddress)
deriving DecidableEq, Repr

inductive MessagingDuty
  | sendMsg (m : Message)
deriving DecidableEq, Repr

/-- Modelled from the spec: the wrapping layer hands the message to the send
capability. -/
def wrappingSend (m : Message) : Option MessagingDuty :=
  some (.sendMsg m)

/-- Modelled from the spec: the wrapping layer builds a typed command error
envelope carrying the originating correlation id and the origin address. -/
def wrappingError (e : CmdError) (msgId : MessageId) (dest : NodeAddress) :
    Option MessagingDuty :=
  some (.sendMsg (.cmdError e msgId dest))

/-! ## MapStorage (map_storage.rs) -/

structure MapStorage where
  chunks : MapChunkStore
deriving DecidableEq, Repr

/-- map_storage.rs ok_or_error: an Err result is reported back to the origin as
a typed command error; Ok produces no outbound message. -/
def MapStorage.okOrError (result : Except NdError Unit) (msgId : MessageId)
    (origin : MsgSender) : Option MessagingDuty :=
  match result with
  | .error e => wrappingError (.data e) msgId origin.addr
  | .ok _ => none

/-- map_storage.rs get_chunk: fetch from the chunk store, translating
NoSuchChunk to NoSuchData and any other store error to its string form, then
check permissions for the requested action.  The source wraps the result in
Some unconditionally (the None leg of its Option is never produced). -/
def MapStorage.getChunk (s : MapStorage) (address : MapAddress) (origin : MsgSender)
    (action : MapAction) : MapStorage × Option (Except NdError MapChunk) :=
  (⟨(s.chunks.get address).1⟩,
   some
     (match (s.chunks.get address).2 with
      | .error .noSuchChunk => .error .noSuchData
      | .error (.other str) => .error (.other str)
      | .ok map =>
          match map.checkPermissions action origin.senderId with
          | .ok _ => .ok map
          | .error e => .error e))

/-- map_storage.rs edit_chunk: get the Map from the chunk store, apply the
mutation function, and overwrite the stored chunk with a single put; any
failure along the chain skips the put and is reported via ok_or_error. -/
def MapStorage.editChunk (s : MapStorage) (address : MapAddress) (origin : MsgSender)
    (msgId : MessageId) (mutationFn : MapChunk → Except NdError MapChunk) :
    MapStorage × Option MessagingDuty :=
  match (match (s.chunks.get address).2 with
         | .error .noSuchChunk => Except.error NdError.noSuchData
         | .error (.other str) => Except.error (NdError.other str)
         | .ok map => mutationFn map) with
  | .error e => (⟨(s.chunks.get address).1⟩, MapStorage.okOrError (.error e) msgId origin)
  | .ok newMap =>
      (⟨((s.chunks.get address).1.put newMap).1⟩,
       MapStorage.okOrError
         (match ((s.chunks.get address).1.put newMap).2 with
          | .ok _ => .ok ()
          | .error e => .error (.other e.toMessage)) msgId origin)

/-- map_storage.rs create: put fails with DataExists when the address is
already occupied; otherwise the chunk is stored. -/
def MapStorage.create (s : MapStorage) (data : MapChunk) (msgId : MessageId)
    (origin : MsgSender) : MapStorage × Option MessagingDuty :=
  if (s.chunks.has data.address).2 then
    (⟨(s.chunks.has data.address).1⟩,
     MapStorage.okOrError (.error .dataExists) msgId origin)
  else
    (⟨((s.chunks.has data.address).1.put data).1⟩,
     MapStorage.okOrError
       (match ((s.chunks.has data.address).1.put data).2 with
        | .ok _ => .ok ()
        | .error e => .error (.other e.toMessage)) msgId origin)

/-- map_storage.rs delete: fetch, check ownership, then delete from the store;
failures are reported via ok_or_error. -/
def MapStorage.deleteChunk (s : MapStorage) (address : MapAddress) (msgId : MessageId)
    (origin : MsgSender) : MapStorage × Option MessagingDuty :=
  match (s.chunks.get address).2 with
  | .error .noSuchChunk =>
      (⟨(s.chunks.get address).1⟩, MapStorage.okOrError (.error .noSuchData) msgId origin)
  | .error (.other str) =>
      (⟨(s.chunks.get address).1⟩,
       MapStorage.okOrError (.error (.other str)) msgId origin)
  | .ok map =>
      match map.checkIsOwner origin.senderId with
      | .error e =>
          (⟨(s.chunks.get address).1⟩, MapStorage.okOrError (.error e) msgId origin)
      | .ok _ =>
          (⟨((s.chunks.get address).1.delete address).1⟩,
           MapStorage.okOrError
             (match ((s.chunks.get address).1.delete address).2 with
              | .ok _ => .ok ()
              | .error e => .error (.other e.toMessage)) msgId origin)

/-- map_storage.rs set_user_permissions: edit_chunk with a mutation that first
checks the ManagePermissions action, then updates the user permissions. -/
def MapStorage.setUserPermissions (s : MapStorage) (address : MapAddress)
    (user : PublicKey) (permissions : MapPermissionSet) (version : Nat)
    (msgId : MessageId) (origin : MsgSender) : MapStorage × Option MessagingDuty :=
  s.editChunk address origin msgId (fun data =>
    match data.checkPermissions .managePermissions origin.senderId with
    | .error e => .error e
    | .ok _ => data.setUserPermissions user permissions version)

/-- map_storage.rs delete_user_permissions: edit_chunk with a mutation that
first checks the ManagePermissions action, then deletes the user permissions. -/
def MapStorage.delUserPermissions (s : MapStorage) (address : MapAddress)
    (user : PublicKey) (version : Nat) (msgId : MessageId) (origin : MsgSender) :
    MapStorage × Option MessagingDuty :=
  s.editChunk address origin msgId (fun data =>
    match data.checkPermissions .managePermissions origin.senderId with
    | .error e => .error e
    | .ok _ => data.delUserPermissions user version)

/-- map_storage.rs edit_entries: edit_chunk with the entry mutation. -/
def MapStorage.editEntries (s : MapStorage) (address : MapAddress)
    (actions : MapEntryActions) (msgId : MessageId) (origin : MsgSender) :
    MapStorage × Option MessagingDuty :=
  s.editChunk address origin msgId (fun data =>
    data.mutateEntries actions origin.senderId)

/-- map_storage.rs get: the whole Map; the query response carries a fresh
message id and the originating message id as its correlation id.  The source
obtains the fresh id from MessageId::new(); the model takes it as the
parameter named fresh. -/
def MapStorage.get (s : MapStorage) (address : MapAddress) (msgId : MessageId)
    (origin : MsgSender) (fresh : MessageId) : MapStorage × Option MessagingDuty :=
  match s.getChunk address origin .read with
  | (s2, none) => (s2, none)
  | (s2, some result) =>
      (s2, wrappingSend (.queryResponse (.getMap result) fresh msgId origin.addr))

/-- map_storage.rs get_shell. -/
def MapStorage.getShell (s : MapStorage) (address : MapAddress) (msgId : MessageId)
    (origin : MsgSender) (fresh : MessageId) : MapStorage × Option MessagingDuty :=
  match s.getChunk address origin .read with
  | (s2, none) => (s2, none)
  | (s2, some result) =>
      (s2, wrappingSend (.queryResponse
        (.getMapShell (result.map (fun data => data.shell))) fresh msgId origin.addr))

/-- map_storage.rs get_version. -/
def MapStorage.getVersion (s : MapStorage) (address : MapAddress) (msgId : MessageId)
    (origin : MsgSender) (fresh : MessageId) : MapStorage × Option MessagingDuty :=
  match s.getChunk address origin .read with
  | (s2, none) => (s2, none)
  | (s2, some result) =>
      (s2, wrappingSend (.queryResponse
        (.getMapVersion (result.map (fun data => data.version))) fresh msgId origin.addr))

/-- map_storage.rs get_value: look the key up in the entries, failing with
NoSuchEntry when absent. -/
def MapStorage.getValue (s : MapStorage) (address : MapAddress) (key : MapKey)
    (msgId : MessageId) (origin : MsgSender) (fresh : MessageId) :
    MapStorage × Option MessagingDuty :=
  match s.getChunk address origin .read with
  | (s2, none) => (s2, none)
  | (s2, some res) =>
      (s2, wrappingSend (.queryResponse
        (.getMapValue
          (match res with
           | .error e => .error e
           | .ok data =>
               match lookupAssoc data.entries key with
               | some value => .ok value
               | none => .error .noSuchEntry)) fresh msgId origin.addr))

/-- map_storage.rs list_keys. -/
def MapStorage.listKeys (s : MapStorage) (address : MapAddress) (msgId : MessageId)
    (origin : MsgSender) (fresh : MessageId) : MapStorage × Option MessagingDuty :=
  match s.getChunk address origin .read with
  | (s2, none) => (s2, none)
  | (s2, some result) =>
      (s2, wrappingSend (.queryResponse
        (.listMapKeys (result.map (fun data => data.keys))) fresh msgId origin.addr))

/-- map_storage.rs list_values. -/
def MapStorage.listValues (s : MapStorage) (address : MapAddress) (msgId : MessageId)
    (origin : MsgSender) (fresh : MessageId) : MapStorage × Option MessagingDuty :=
  match s.getChunk address origin .read with
  | (s2, none) => (s2, none)
  | (s2, some res) =>
      (s2, wrappingSend (.queryResponse
        (.listMapValues (res.map (fun data => data.values))) fresh msgId origin.addr))

/-- map_storage.rs list_entries. -/
def MapStorage.listEntries (s : MapStorage) (address : MapAddress) (msgId : MessageId)
    (origin : MsgSender) (fresh : MessageId) : MapStorage × Option MessagingDuty :=
  match s.getChunk address origin .read with
  | (s2, none) => (s2, none)
  | (s2, some res) =>
      (s2, wrappingSend (.queryResponse
        (.listMapEntries (res.map (fun data => data.entries))) fresh msgId origin.addr))

/-- map_storage.rs list_permissions. -/
def MapStorage.listPermissions (s : MapStorage) (address : MapAddress)
    (msgId : MessageId) (origin : MsgSender) (fresh : MessageId) :
    MapStorage × Option MessagingDuty :=
  match s.getChunk address origin .read with
  | (s2, none) => (s2, none)
  | (s2, some result) =>
      (s2, wrappingSend (.queryResponse
        (.listMapPermissions (result.map (fun data => data.perms))) fresh msgId origin.addr))

/-- map_storage.rs list_user_permissions. -/
def MapStorage.listUserPermissions (s : MapStorage) (address : MapAddress)
    (user : PublicKey) (msgId : MessageId) (origin : MsgSender) (fresh : MessageId) :
    MapStorage × Option MessagingDuty :=
  match s.getChunk address origin .read with
  | (s2, none) => (s2, none)
  | (s2, some result) =>
      (s2, wrappingSend (.queryResponse
        (.listMapUserPermissions
          (match result with
           | .error e => .error e
           | .ok data => data.userPermissions user)) fresh msgId origin.addr))

/-! ## MapRead / MapWrite dispatch (safe-nd request enums, map_storage.rs
read and write) -/

inductive MapRead
  | get (address : MapAddress)
  | getValue (address : MapAddress) (key : MapKey)
  | getShell (address : MapAddress)
  | getVersion (address : MapAddress)
  | listEntries (address : MapAddress)
  | listKeys (address : MapAddress)
  | listValues (address : MapAddress)
  | listPermissions (address : MapAddress)
  | listUserPermissions (address : MapAddress) (user : PublicKey)
deriving DecidableEq, Repr

def MapRead.address : MapRead → MapAddress
  | .get a => a
  | .getValue a _ => a
  | .getShell a => a
  | .getVersion a => a
  | .listEntries a => a
  | .listKeys a => a
  | .listValues a => a
  | .listPermissions a => a
  | .listUserPermissions a _ => a

inductive MapWrite
  | new (data : MapChunk)
  | delete (address : MapAddress)
  | setUserPermissions (address : MapAddress) (user : PublicKey)
      (permissions : MapPermissionSet) (version : Nat)
  | delUserPermissions (address : MapAddress) (user : PublicKey) (version : Nat)
  | edit (address : MapAddress) (changes : MapEntryActions)
deriving DecidableEq, Repr

def MapWrite.address : MapWrite → MapAddress
  | .new d => d.address
  | .delete a => a
  | .setUserPermissions a _ _ _ => a
  | .delUserPermissions a _ _ => a
  | .edit a _ => a

def MapWrite.isNew : MapWrite → Bool
  | .new _ => true
  | _ => false

/-- map_storage.rs read: dispatch a MapRead to its handler. -/
def MapStorage.read (s : MapStorage) (readOp : MapRead) (msgId : MessageId)
    (origin : MsgSender) (fresh : MessageId) : MapStorage × Option MessagingDuty :=
  match readOp with
  | .get address => s.get address msgId origin fresh
  | .getValue address key => s.getValue address key msgId origin fresh
  | .getShell address => s.getShell address msgId origin fresh
  | .getVersion address => s.getVersion address msgId origin fresh
  | .listEntries address => s.listEntries address msgId origin fresh
  | .listKeys address => s.listKeys address msgId origin fresh
  | .listValues address => s.listValues address msgId origin fresh
  | .listPermissions address => s.listPermissions address msgId origin fresh
  | .listUserPermissions address user => s.listUserPermissions address user msgId origin fresh

/-- map_storage.rs write: dispatch a MapWrite to its handler. -/
def MapStorage.write (s : MapStorage) (writeOp : MapWrite) (msgId : MessageId)
    (origin : MsgSender) : MapStorage × Option MessagingDuty :=
  match writeOp with
  | .new data => s.create data msgId origin
  | .delete address => s.deleteChunk address msgId origin
  | .setUserPermissions address user permissions version =>
      s.setUserPermissions address user permissions version msgId origin
  | .delUserPermissions address user version =>
      s.delUserPermissions address user version msgId origin
  | .edit address changes => s.editEntries address changes msgId origin

/-! ## SectionFunds (section_funds.rs)

The transfer actor is the external safe_transfers crate; a call into it is
modelled by passing the outcome of that call as an argument (the spec data
model, section 3, gives the shapes of the events).  The MessageId::new() of
the source is the parameter named fresh.  Every side effect the function body
performs is recorded in an effect list: applying an actor event, or emitting a
log entry.  The source body of section_funds.rs contains no logging call, so
no leg of these definitions produces a logged effect. -/

abbrev Money := Nat

abbrev AccountId := Nat

structure SignedTransfer where
  sender : AccountId
  recipient : AccountId
  amount : Money
  seq : Nat
deriving DecidableEq, Repr

structure TransferInitiated where
  signed_transfer : SignedTransfer
deriving DecidableEq, Repr

abbrev TransferProof := Nat

abbrev TransferValidated := Nat

structure TransferValidationReceived where
  validation : TransferValidated
  proof : Option TransferProof
deriving DecidableEq, Repr

inductive ActorEvent
  | transferInitiated (e : TransferInitiated)
  | transferValidationReceived (e : TransferValidationReceived)
deriving DecidableEq, Repr

inductive TransferError
  | validationFailed
  | otherError (s : String)
deriving DecidableEq, Repr

inductive NetworkCmd
  | initiateRewardPayout (transfer : SignedTransfer)
  | finaliseRewardPayout (proof : TransferProof)
deriving DecidableEq, Repr

inductive OutboundMsg
  | networkCmd (cmd : NetworkCmd) (id : MessageId)
deriving DecidableEq, Repr

inductive SFEffect
  | applied (e : ActorEvent)
  | logged (s : String)
deriving DecidableEq, Repr

/-- section_funds.rs initiate_reward_payout: on Ok(Some(event)) the event is
applied to the actor and an InitiateRewardPayout network command is sent; on
Ok(None) nothing happens; on Err the error is discarded and nothing is sent
(the source comment reads: for now, but should give NetworkCmdError). -/
def SectionFunds.initiate_reward_payout
    (transferResult : Except TransferError (Option TransferInitiated))
    (fresh : MessageId) : List SFEffect × Option OutboundMsg :=
  match transferResult with
  | .ok (some event) =>
      ([SFEffect.applied (.transferInitiated event)],
       some (.networkCmd (.initiateRewardPayout event.signed_transfer) fresh))
  | .ok none => ([], none)
  | .error _ => ([], none)

/-- section_funds.rs receive: on Ok(Some(event)) the event is applied to the
actor, then the finalise command is sent only when the event carries a proof
(the question-mark operator on event.proof returns None after the apply when
the proof is absent); on Ok(None) or Err nothing happens. -/
def SectionFunds.receive
    (receiveResult : Except TransferError (Option TransferValidationReceived))
    (fresh : MessageId) : List SFEffect × Option OutboundMsg :=
  match receiveResult with
  | .ok (some event) =>
      (match event.proof with
       | none => ([SFEffect.applied (.transferValidationReceived event)], none)
       | some proof =>
           ([SFEffect.applied (.transferValidationReceived event)],
            some (.networkCmd (.finaliseRewardPayout proof) fresh)))
  | .ok none => ([], none)
  | .error _ => ([], none)

/-! ## KeySection (key_section/mod.rs)

The auth module and the client message analysis are sibling modules of the key
section that are not among the sampled sources; they are modelled from the
spec as arbitrary functions (spec section 4.1: envelopes whose sender fails
signature or authorization checks are rejected before classification and never
reach the core).  The routing membership capability is the external routing
crate (spec section 6): each accessor can fail, modelled as an Option. -/

abbrev MsgEnvelope := Nat

abbrev PublicId := Nat

inductive NodeOperation
  | fromError (duty : MessagingDuty)
  | other (n : Nat)
deriving DecidableEq, Repr

structure Auth where
  verify_client_signature : MsgEnvelope → Option MessagingDuty
  authorise_app : PublicId → MsgEnvelope → Option MessagingDuty

structure ClientMsgAnalysis where
  evaluate : MsgEnvelope → Option NodeOperation

/-- key_section/mod.rs evaluate: a failed client signature check returns the
error operation at once; otherwise a failed app authorisation check returns
the error operation; only an envelope passing both checks is handed to
msg_analysis.evaluate.  The Bool records whether msg_analysis.evaluate was
invoked. -/
def KeySection.evaluate (auth : Auth) (msg_analysis : ClientMsgAnalysis)
    (public_id : PublicId) (msg : MsgEnvelope) : Option NodeOperation × Bool :=
  match auth.verify_client_signature msg with
  | some error => (some (.fromError error), false)
  | none =>
      match auth.authorise_app public_id msg with
      | some error => (some (.fromError error), false)
      | none => (msg_analysis.evaluate msg, true)

abbrev PublicKeySet := Nat

abbrev SecretKeyShare := Nat

abbrev ProofChain := List Nat

/-- Modelled from the spec (section 6): the membership capability, each
accessor of which can be unobtainable. -/
structure Routing where
  public_key_set : Option PublicKeySet
  secret_key_share : Option SecretKeyShare
  our_history : Option ProofChain
  our_index : Option Nat
deriving DecidableEq, Repr

/-- Modelled from the spec (section 3): the Replica Info signing material,
replaced wholesale on every churn event. -/
structure ReplicaInfo where
  public_key_set : PublicKeySet
  secret_key_share : SecretKeyShare
  key_index : Nat
  proof_chain : ProofChain
deriving DecidableEq, Repr

structure TransfersState where
  replica : ReplicaInfo
deriving DecidableEq, Repr

/-- Modelled from the spec (section 4.5): update_replica_on_churn constructs a
new Replica Info from the fetched material and atomically swaps it in. -/
def Transfers.update_replica_on_churn (_t : TransfersState) (pks : PublicKeySet)
    (sks : SecretKeyShare) (index : Nat) (pc : ProofChain) :
    TransfersState × Option Unit :=
  ((⟨⟨pks, sks, index, pc⟩⟩ : TransfersState), some ())

/-- key_section/mod.rs elders_changed: fetch the public key set, the secret
key share, the proof chain and the local key index from the routing layer;
each question-mark operator returns None (leaving the replica untouched) when
the item is unobtainable; on success all four are installed through one
update_replica_on_churn call and None is returned. -/
def KeySection.elders_changed (r : Routing) (t : TransfersState) :
    TransfersState × Option NodeOperation :=
  match r.public_key_set with
  | none => (t, none)
  | some pks =>
      match r.secret_key_share with
      | none => (t, none)
      | some sks =>
          match r.our_history with
          | none => (t, none)
          | some pc =>
              match r.our_index with
              | none => (t, none)
              | some index =>
                  match Transfers.update_replica_on_churn t pks sks index pc with
                  | (t2, none) => (t2, none)
                  | (t2, some _) => (t2, none)

/-! ## MailBox (personas/mpid_manager.rs)

Direct translation of the MailBox structure; the u64 fields are Nat with
explicit wrapping modulo 2^64 where the source arithmetic can wrap.  The Rust
HashMap is an association list; HashMap::insert replaces the value of an
existing key in place and reports whether a previous value was present, which
is what the lookup-then-insert below does. -/

def u64Mod : Nat := 2 ^ 64

structure MailBox where
  allowance : Nat
  used_space : Nat
  space_available : Nat
  mail_box : List (XorName × Option PublicKey)
deriving DecidableEq, Repr

def MailBox.new (allowance : Nat) : MailBox :=
  { allowance := allowance, used_space := 0, space_available := allowance,
    mail_box := [] }

/-- mpid_manager.rs MailBox::put: refuse when the size exceeds the available
space; refuse (but still replace the stored key, as HashMap::insert does) when
the entry name is already present; otherwise insert and move size from
available to used.  The guard makes the subtraction exact; the addition wraps
as u64 addition does. -/
def MailBox.put (mb : MailBox) (size : Nat) (entry : XorName)
    (public_key : Option PublicKey) : MailBox × Bool :=
  if size > mb.space_available then (mb, false)
  else
    match lookupAssoc mb.mail_box entry with
    | some _ => ({ mb with mail_box := insertAssoc mb.mail_box entry public_key }, false)
    | none =>
        ({ mb with
            used_space := (mb.used_space + size) % u64Mod,
            space_available := mb.space_available - size,
            mail_box := insertAssoc mb.mail_box entry public_key }, true)

/-- mpid_manager.rs MailBox::remove: when the entry is present, erase it and
move size from used to available; both u64 operations wrap. -/
def MailBox.remove (mb : MailBox) (size : Nat) (entry : XorName) : MailBox × Bool :=
  match lookupAssoc mb.mail_box entry with
  | some _ =>
      ({ mb with
          used_space := (mb.used_space + (u64Mod - size % u64Mod)) % u64Mod,
          space_available := (mb.space_available + size) % u64Mod,
          mail_box := eraseAssoc mb.mail_box entry }, true)
  | none => (mb, false)

def MailBox.contains_key (mb : MailBox) (entry : XorName) : Bool :=
  (lookupAssoc mb.mail_box entry).isSome

def MailBox.names (mb : MailBox) : List XorName :=
  mb.mail_box.map Prod.fst

/-! ## Sample values used by the concrete witnesses -/

def sampleChunk : MapChunk :=
  { address := 0, owner := 1, version := 0, perms := [], entries := [([2], [3])] }

def sampleOrigin : MsgSender := { senderId := 1, addr := 7 }

def sampleStorage : MapStorage :=
  ⟨{ data := [(0, sampleChunk)], log := [] }⟩

def emptyStorage : MapStorage := ⟨{ data := [], log := [] }⟩

def sampleMailBox : MailBox :=
  { allowance := 100, used_space := 10, space_available := 90, mail_box := [(1, none)] }

/-- The query response produced by a read when its address holds no chunk. -/
def noSuchDataResponse : MapRead → QueryResponse
  | .get _ => .getMap (.error .noSuchData)
  | .getValue _ _ => .getMapValue (.error .noSuchData)
  | .getShell _ => .getMapShell (.error .noSuchData)
  | .getVersion _ => .getMapVersion (.error .noSuchData)
  | .listEntries _ => .listMapEntries (.error .noSuchData)
  | .listKeys _ => .listMapKeys (.error .noSuchData)
  | .listValues _ => .listMapValues (.error .noSuchData)
  | .listPermissions _ => .listMapPermissions (.error .noSuchData)
  | .listUserPermissions _ _ => .listMapUserPermissions (.error .noSuchData)

/-! ## Theorems -/

/-- C1: a create (MapWrite::New) at an address already occupied in the chunk
store fails with the DataExists error reported to the origin, the stored data
is unchanged, and a get after the failed create returns the value stored
before the create. -/
theorem mapStorage_create_occupied_fails_dataExists
    (s : MapStorage) (data old : MapChunk) (msgId : MessageId) (origin : MsgSender)
    (h : lookupAssoc s.chunks.data data.address = some old) :
    (s.create data msgId origin).2 =
      some (.sendMsg (.cmdError (.data .dataExists) msgId origin.addr)) ∧
    (s.create data msgId origin).1.chunks.data = s.chunks.data ∧
    ((s.create data msgId origin).1.chunks.get data.address).2 = .ok old := by
  simp [MapStorage.create, MapChunkStore.has, MapChunkStore.get, h,
        MapStorage.okOrError, wrappingError]

/-- C1 witness: concrete occupied store. -/
theorem mapStorage_create_occupied_fails_dataExists_witness :
    (sampleStorage.create sampleChunk 5 sampleOrigin).2 =
      some (.sendMsg (.cmdError (.data .dataExists) 5 sampleOrigin.addr)) ∧
    (sampleStorage.create sampleChunk 5 sampleOrigin).1.chunks.data =
      sampleStorage.chunks.data ∧
    ((sampleStorage.create sampleChunk 5 sampleOrigin).1.chunks.get
        sampleChunk.address).2 = .ok sampleChunk :=
  mapStorage_create_occupied_fails_dataExists sampleStorage sampleChunk sampleChunk 5
    sampleOrigin (by decide)

/-- C2: edit_chunk first fetches the stored chunk, applies the mutation
function (which performs the permission check), and only on success
re-persists the result with a single put; when the fetch or the mutation
fails, no put is performed, the stored data is unchanged, and the failure is
reported to the origin as a typed command error.  The last conjunct
instantiates this for set_user_permissions with a failing permission check. -/
theorem mapStorage_editChunk_spec (s : MapStorage) (address : MapAddress)
    (origin : MsgSender) (msgId : MessageId) (f : MapChunk → Except NdError MapChunk) :
    (lookupAssoc s.chunks.data address = none →
      (s.editChunk address origin msgId f).1.chunks.data = s.chunks.data ∧
      (s.editChunk address origin msgId f).1.chunks.log =
        s.chunks.log ++ [StoreOp.getOp address] ∧
      (s.editChunk address origin msgId f).2 =
        some (.sendMsg (.cmdError (.data .noSuchData) msgId origin.addr))) ∧
    (∀ c e, lookupAssoc s.chunks.data address = some c → f c = .error e →
      (s.editChunk address origin msgId f).1.chunks.data = s.chunks.data ∧
      (s.editChunk address origin msgId f).1.chunks.log =
        s.chunks.log ++ [StoreOp.getOp address] ∧
      (s.editChunk address origin msgId f).2 =
        some (.sendMsg (.cmdError (.data e) msgId origin.addr))) ∧
    (∀ c c2, lookupAssoc s.chunks.data address = some c → f c = .ok c2 →
      (s.editChunk address origin msgId f).1.chunks.data =
        insertAssoc s.chunks.data c2.address c2 ∧
      (s.editChunk address origin msgId f).1.chunks.log =
        s.chunks.log ++ [StoreOp.getOp address, StoreOp.putOp c2.address] ∧
      (s.editChunk address origin msgId f).2 = none) ∧
    (∀ c e user ps version, lookupAssoc s.chunks.data address = some c →
      c.checkPermissions .managePermissions origin.senderId = .error e →
      (s.setUserPermissions address user ps version msgId origin).1.chunks.data =
        s.chunks.data ∧
      (s.setUserPermissions address user ps version msgId origin).2 =
        some (.sendMsg (.cmdError (.data e) msgId origin.addr))) := by
  refine ⟨?_, ?_, ?_, ?_⟩
  · intro h
    simp [MapStorage.editChunk, MapChunkStore.get, MapStorage.okOrError,
          wrappingError, h]
  · intro c e h hf
    simp [MapStorage.editChunk, MapChunkStore.get, MapStorage.okOrError,
          wrappingError, h, hf]
  · intro c c2 h hf
    simp [MapStorage.editChunk, MapChunkStore.get, MapChunkStore.put,
          MapStorage.okOrError, h, hf]
  · intro c e user ps version h hp
    simp [MapStorage.setUserPermissions, MapStorage.editChunk, MapChunkStore.get,
          MapStorage.okOrError, wrappingError, h, hp]

/-- C2 witness: the missing-address leg at a concrete empty store. -/
theorem mapStorage_editChunk_spec_witness :
    (emptyStorage.editChunk 0 sampleOrigin 5 Except.ok).1.chunks.data =
      emptyStorage.chunks.data ∧
    (emptyStorage.editChunk 0 sampleOrigin 5 Except.ok).1.chunks.log =
      emptyStorage.chunks.log ++ [StoreOp.getOp 0] ∧
    (emptyStorage.editChunk 0 sampleOrigin 5 Except.ok).2 =
      some (.sendMsg (.cmdError (.data .noSuchData) 5 sampleOrigin.addr)) :=
  (mapStorage_editChunk_spec emptyStorage 0 sampleOrigin 5 Except.ok).1 (by decide)

/-- C3 counterexample: a MapWrite::New (a write operation addressed to an
address holding no chunk) does not fail with NoSuchData; it succeeds, reports
no error, and stores the chunk. -/
theorem mapWrite_new_missing_address_succeeds :
    (emptyStorage.write (.new sampleChunk) 5 sampleOrigin).2 = none ∧
    lookupAssoc (emptyStorage.write (.new sampleChunk) 5 sampleOrigin).1.chunks.data
        sampleChunk.address = some sampleChunk := by
  decide

/-- C3 (amended): every Map read, and every Map write other than New
(creation), addressed to an address that holds no chunk fails with NoSuchData
(the NoSuchChunk store error is translated to NoSuchData before being
surfaced). -/
theorem mapStorage_missing_address_noSuchData (s : MapStorage) (msgId : MessageId)
    (origin : MsgSender) (fresh : MessageId) :
    (∀ readOp : MapRead, lookupAssoc s.chunks.data readOp.address = none →
      (s.read readOp msgId origin fresh).2 =
        some (.sendMsg (.queryResponse (noSuchDataResponse readOp) fresh msgId
          origin.addr)) ∧
      (noSuchDataResponse readOp).errorOf = some .noSuchData) ∧
    (∀ writeOp : MapWrite, writeOp.isNew = false →
      lookupAssoc s.chunks.data writeOp.address = none →
      (s.write writeOp msgId origin).2 =
        some (.sendMsg (.cmdError (.data .noSuchData) msgId origin.addr))) := by
  constructor
  · intro readOp h
    cases readOp <;>
      simp_all [MapStorage.read, MapStorage.get, MapStorage.getValue,
        MapStorage.getShell, MapStorage.getVersion, MapStorage.listEntries,
        MapStorage.listKeys, MapStorage.listValues, MapStorage.listPermissions,
        MapStorage.listUserPermissions, MapStorage.getChunk, MapChunkStore.get,
        MapRead.address, noSuchDataResponse, QueryResponse.errorOf, wrappingSend,
        Except.map]
  · intro writeOp hw h
    cases writeOp <;>
      simp_all [MapStorage.write, MapStorage.deleteChunk, MapWrite.isNew,
        MapStorage.setUserPermissions, MapStorage.delUserPermissions,
        MapStorage.editEntries, MapStorage.editChunk, MapChunkStore.get,
        MapWrite.address, MapStorage.okOrError, wrappingError]

/-- C3 (amended) witness: a concrete read and a concrete delete at an empty
store. -/
theorem mapStorage_missing_address_noSuchData_witness :
    ((emptyStorage.read (.get 0) 5 sampleOrigin 6).2 =
      some (.sendMsg (.queryResponse (noSuchDataResponse (.get 0)) 6 5
        sampleOrigin.addr)) ∧
     (noSuchDataResponse (.get 0)).errorOf = some .noSuchData) ∧
    (emptyStorage.write (.delete 0) 5 sampleOrigin).2 =
      some (.sendMsg (.cmdError (.data .noSuchData) 5 sampleOrigin.addr)) :=
  ⟨(mapStorage_missing_address_noSuchData emptyStorage 5 sampleOrigin 6).1
      (.get 0) (by decide),
   (mapStorage_missing_address_noSuchData emptyStorage 5 sampleOrigin 6).2
      (.delete 0) (by decide) (by decide)⟩

/-- C8: every Map read query produces a QueryResponse message whose
correlation id is the message id of the incoming query and whose own message
id is the freshly generated one. -/
theorem mapStorage_read_correlation (readOp : MapRead) (s : MapStorage)
    (msgId : MessageId) (origin : MsgSender) (fresh : MessageId) :
    ∃ resp, (s.read readOp msgId origin fresh).2 =
      some (.sendMsg (.queryResponse resp fresh msgId origin.addr)) := by
  cases readOp <;> exact ⟨_, rfl⟩

/-- C10: every Map read leaves the chunk store data unchanged, and the only
store operation it performs is a single get at the requested address (no put,
no delete). -/
theorem mapStorage_read_frame (readOp : MapRead) (s : MapStorage) (msgId : MessageId)
    (origin : MsgSender) (fresh : MessageId) :
    (s.read readOp msgId origin fresh).1.chunks.data = s.chunks.data ∧
    (s.read readOp msgId origin fresh).1.chunks.log =
      s.chunks.log ++ [StoreOp.getOp readOp.address] := by
  cases readOp <;>
    simp [MapStorage.read, MapStorage.get, MapStorage.getValue, MapStorage.getShell,
          MapStorage.getVersion, MapStorage.listEntries, MapStorage.listKeys,
          MapStorage.listValues, MapStorage.listPermissions,
          MapStorage.listUserPermissions, MapStorage.getChunk, MapChunkStore.get,
          MapRead.address]

/-- C4 counterexample: when the transfer actor returns a local validation
error, the effect trace of both initiate_reward_payout and receive is empty
(in particular no log entry is emitted, contrary to the claim that the error
is logged) and no outbound message is produced. -/
theorem sectionFunds_error_not_logged :
    SectionFunds.initiate_reward_payout (.error .validationFailed) 0 = ([], none) ∧
    SectionFunds.receive (.error .validationFailed) 0 = ([], none) :=
  ⟨rfl, rfl⟩

/-- C4 (amended): when the transfer actor returns a local validation error
from initiate_reward_payout or receive, the error is silently discarded
(nothing is logged), no outbound network message is produced, and no further
actor interaction takes place (the payout is not retried automatically). -/
theorem sectionFunds_error_silently_discarded (e : TransferError) (fresh : MessageId) :
    SectionFunds.initiate_reward_payout (.error e) fresh = ([], none) ∧
    SectionFunds.receive (.error e) fresh = ([], none) :=
  ⟨rfl, rfl⟩

/-- C5: receive emits a FinaliseRewardPayout network command exactly when the
actor reports a validation-received event carrying a completed transfer proof;
with no event, or with an event whose proof is absent, no outbound message is
produced. -/
theorem sectionFunds_receive_finalise_iff
    (res : Except TransferError (Option TransferValidationReceived))
    (fresh : MessageId) :
    (∀ p, (SectionFunds.receive res fresh).2 =
        some (.networkCmd (.finaliseRewardPayout p) fresh) ↔
      ∃ ev, res = .ok (some ev) ∧ ev.proof = some p) ∧
    (res = .ok none → (SectionFunds.receive res fresh).2 = none) ∧
    (∀ ev, res = .ok (some ev) → ev.proof = none →
      (SectionFunds.receive res fresh).2 = none) := by
  refine ⟨?_, ?_, ?_⟩
  · intro p
    constructor
    · intro h
      match res with
      | .error e => simp [SectionFunds.receive] at h
      | .ok none => simp [SectionFunds.receive] at h
      | .ok (some ev) =>
          match hp : ev.proof with
          | none => simp [SectionFunds.receive, hp] at h
          | some q =>
              simp [SectionFunds.receive, hp] at h
              exact ⟨ev, rfl, by rw [hp, h]⟩
    · rintro ⟨ev, rfl, hp⟩
      simp [SectionFunds.receive, hp]
  · intro h
    subst h
    simp [SectionFunds.receive]
  · intro ev h hp
    subst h
    simp [SectionFunds.receive, hp]

/-- C5 witness: a validation-received event carrying a completed proof makes
receive emit the finalise command. -/
theorem sectionFunds_receive_finalise_iff_witness :
    (SectionFunds.receive (.ok (some ⟨3, some 7⟩)) 2).2 =
      some (.networkCmd (.finaliseRewardPayout 7) 2) :=
  ((sectionFunds_receive_finalise_iff (.ok (some ⟨3, some 7⟩)) 2).1 7).mpr
    ⟨⟨3, some 7⟩, rfl, rfl⟩

/-- C6: elders_changed leaves the replica untouched and returns no operation
when any of the public key set, the secret key share, the proof chain, or the
local key index is unobtainable; when all four are available they are all
installed into the replica in one update_replica_on_churn call. -/
theorem keySection_elders_changed_spec (r : Routing) (t : TransfersState) :
    ((r.public_key_set = none ∨ r.secret_key_share = none ∨
      r.our_history = none ∨ r.our_index = none) →
      KeySection.elders_changed r t = (t, none)) ∧
    (∀ pks sks pc index, r.public_key_set = some pks → r.secret_key_share = some sks →
      r.our_history = some pc → r.our_index = some index →
      KeySection.elders_changed r t =
        ((⟨⟨pks, sks, index, pc⟩⟩ : TransfersState), none)) := by
  constructor
  · intro h
    rcases h with h | h | h | h <;>
      cases hp : r.public_key_set <;> cases hs : r.secret_key_share <;>
        cases hh : r.our_history <;> cases hi : r.our_index <;>
          simp_all [KeySection.elders_changed, Transfers.update_replica_on_churn]
  · intro pks sks pc index hp hs hh hi
    simp [KeySection.elders_changed, Transfers.update_replica_on_churn,
          hp, hs, hh, hi]

/-- C6 witness: a routing layer with a missing key index leaves the replica
unchanged. -/
theorem keySection_elders_changed_spec_witness :
    KeySection.elders_changed ⟨some 1, some 2, some [3], none⟩ ⟨⟨0, 0, 0, []⟩⟩ =
      (⟨⟨0, 0, 0, []⟩⟩, none) :=
  (keySection_elders_changed_spec ⟨some 1, some 2, some [3], none⟩ ⟨⟨0, 0, 0, []⟩⟩).1
    (Or.inr (Or.inr (Or.inr rfl)))

/-- C7: evaluate returns the error operation without invoking message
classification when the client signature check fails, or when the signature
check passes and the app authorisation check fails; classification runs
exactly on envelopes passing both checks. -/
theorem keySection_evaluate_spec (auth : Auth) (msg_analysis : ClientMsgAnalysis)
    (public_id : PublicId) (msg : MsgEnvelope) :
    (∀ e, auth.verify_client_signature msg = some e →
      KeySection.evaluate auth msg_analysis public_id msg =
        (some (.fromError e), false)) ∧
    (∀ e, auth.verify_client_signature msg = none →
      auth.authorise_app public_id msg = some e →
      KeySection.evaluate auth msg_analysis public_id msg =
        (some (.fromError e), false)) ∧
    (auth.verify_client_signature msg = none →
      auth.authorise_app public_id msg = none →
      KeySection.evaluate auth msg_analysis public_id msg =
        (msg_analysis.evaluate msg, true)) := by
  refine ⟨?_, ?_, ?_⟩
  · intro e hv
    simp [KeySection.evaluate, hv]
  · intro e hv ha
    simp [KeySection.evaluate, hv, ha]
  · intro hv ha
    simp [KeySection.evaluate, hv, ha]

/-- C7 witness: a concrete auth layer whose signature check fails. -/
theorem keySection_evaluate_spec_witness :
    KeySection.evaluate
      ⟨fun _ => some (.sendMsg (.cmdError (.data .accessDenied) 0 0)),
       fun _ _ => none⟩
      ⟨fun _ => some (.other 4)⟩ 1 2 =
      (some (.fromError (.sendMsg (.cmdError (.data .accessDenied) 0 0))), false) :=
  (keySection_evaluate_spec
      ⟨fun _ => some (.sendMsg (.cmdError (.data .accessDenied) 0 0)),
       fun _ _ => none⟩
      ⟨fun _ => some (.other 4)⟩ 1 2).1
    (.sendMsg (.cmdError (.data .accessDenied) 0 0)) rfl

/-- Replacing the value of a key that is already present keeps the length of
an association list unchanged. -/
theorem insertAssoc_length_present {α β : Type} [DecidableEq α]
    (l : List (α × β)) (k : α) (x : β) (h : (lookupAssoc l k).isSome = true) :
    (insertAssoc l k x).length = l.length := by
  induction l with
  | nil => simp [lookupAssoc] at h
  | cons p rest ih =>
      obtain ⟨a, b⟩ := p
      simp only [lookupAssoc] at h
      simp only [insertAssoc]
      by_cases hk : a = k
      · simp [hk]
      · simp only [if_neg hk] at h
        simp [hk, ih h]

/-- C9: a MailBox created by new satisfies used_space + space_available =
allowance; the equality is preserved by every put and by every remove whose
size does not exceed used_space; put returns false and leaves used_space,
space_available, and the size of the stored map unchanged both when the size
exceeds the available space and when the entry is already present. -/
theorem mailBox_space_invariant (allowance size : Nat) (entry : XorName)
    (pk : Option PublicKey) (mb : MailBox)
    (hwf : mb.used_space + mb.space_available = mb.allowance)
    (hcap : mb.allowance < u64Mod) :
    ((MailBox.new allowance).used_space + (MailBox.new allowance).space_available =
      (MailBox.new allowance).allowance) ∧
    ((mb.put size entry pk).1.used_space + (mb.put size entry pk).1.space_available =
        (mb.put size entry pk).1.allowance ∧
      (mb.put size entry pk).1.allowance = mb.allowance) ∧
    (size ≤ mb.used_space →
      (mb.remove size entry).1.used_space + (mb.remove size entry).1.space_available =
        (mb.remove size entry).1.allowance ∧
      (mb.remove size entry).1.allowance = mb.allowance) ∧
    (size > mb.space_available → mb.put size entry pk = (mb, false)) ∧
    ((lookupAssoc mb.mail_box entry).isSome = true →
      (mb.put size entry pk).2 = false ∧
      (mb.put size entry pk).1.used_space = mb.used_space ∧
      (mb.put size entry pk).1.space_available = mb.space_available ∧
      (mb.put size entry pk).1.mail_box.length = mb.mail_box.length) := by
  refine ⟨by simp [MailBox.new], ?_, ?_, ?_, ?_⟩
  · by_cases hgt : size > mb.space_available
    · simp [MailBox.put, hgt]
      exact hwf
    · cases hl : lookupAssoc mb.mail_box entry with
      | some v =>
          simp [MailBox.put, hgt, hl]
          exact hwf
      | none =>
          simp [MailBox.put, hgt, hl]
          have hlt : mb.used_space + size < u64Mod := by omega
          rw [Nat.mod_eq_of_lt hlt]
          omega
  · intro hsz
    cases hl : lookupAssoc mb.mail_box entry with
    | none =>
        simp [MailBox.remove, hl]
        exact hwf
    | some v =>
        simp [MailBox.remove, hl]
        have hs : size % u64Mod = size := Nat.mod_eq_of_lt (by omega)
        rw [hs]
        have h1 : mb.used_space + (u64Mod - size) = mb.used_space - size + u64Mod := by
          omega
        rw [h1, Nat.add_mod_right,
            Nat.mod_eq_of_lt (show mb.used_space - size < u64Mod by omega),
            Nat.mod_eq_of_lt (show mb.space_available + size < u64Mod by omega)]
        omega
  · intro hgt
    simp [MailBox.put, hgt]
  · intro hl
    by_cases hgt : size > mb.space_available
    · simp [MailBox.put, hgt]
    · obtain ⟨v, hv⟩ := Option.isSome_iff_exists.mp hl
      simp [MailBox.put, hgt, hv]
      exact insertAssoc_length_present mb.mail_box entry pk hl

/-- C9 witness: the preservation leg of put at a concrete mailbox. -/
theorem mailBox_space_invariant_witness :
    (sampleMailBox.put 5 2 none).1.used_space +
        (sampleMailBox.put 5 2 none).1.space_available =
      (sampleMailBox.put 5 2 none).1.allowance ∧
    (sampleMailBox.put 5 2 none).1.allowance = sampleMailBox.allowance :=
  (mailBox_space_invariant 100 5 2 none sampleMailBox (by decide) (by decide)).2.1
